import Mathlib

/-!
Verification development for the NH legislative tracker analysis pipeline.

This file gives a shallow embedding, in Lean, of the core functions of the
repository (content fingerprinting, analysis key derivation, analysis
storage with write verification, keyword fallback analysis, AI dimension
analysis with timeout racing, the stale-while-revalidate cache middleware,
and the paginated sync loop), followed by theorems settling the frozen
claims about the natural-language specification.

Modelling conventions:
- JavaScript strings are modelled as Lean strings; character codes are
  taken as UTF-16 code units (surrogate pairs are expanded explicitly).
- JavaScript 32-bit integer coercion (the x & x idiom) is modelled by an
  explicit two-complement wrap on Int.
- Absent or null object fields are modelled with Option.
- Timestamps compared through the Date constructor are modelled by their
  epoch values as natural numbers.
- External collaborators (the KV store, the platform cache, the generative
  model, the document feed, the platform JSON parser) are modelled as
  explicit parameters describing the outcome they deliver.
-/

namespace NHTracker

/-! ## JavaScript string and number primitives -/

set_option maxRecDepth 8192 in
/-- UTF-16 code units of a string, in order; characters outside the basic
multilingual plane are expanded into their surrogate pair. -/
def utf16Units (s : String) : List Nat :=
  (s.data.map fun c =>
    let n := c.toNat
    if n < 0x10000 then [n]
    else [0xD800 + (n - 0x10000) / 0x400, 0xDC00 + (n - 0x10000) % 0x400]).flatten

/-- Two-complement wrap of an integer into the signed 32-bit range,
modelling the JavaScript ToInt32 coercion used by the hash function. -/
def toInt32 (x : Int) : Int := (x + 2 ^ 31) % 2 ^ 32 - 2 ^ 31

/-- One step of the content hash loop: hash becomes
toInt32 (toInt32 (hash shifted left by five) - hash + char). -/
def jsHashStep (h : Int) (c : Nat) : Int := toInt32 (toInt32 (h * 32) - h + c)

/-- The string hash loop of calculateContentHash folded over the UTF-16
units of the input, starting from zero. -/
def jsStringHash (s : String) : Int := (utf16Units s).foldl jsHashStep 0

/-- Lowercase hexadecimal digit for a value below sixteen. -/
def hexDigit (n : Nat) : Char := if n < 10 then Char.ofNat (48 + n) else Char.ofNat (87 + n)

/-- Escape of one character inside a JSON string literal, following the
JSON.stringify escaping rules. -/
def jsonEscapeChar (c : Char) : String :=
  if c = '"' then "\\\""
  else if c = '\\' then "\\\\"
  else if c = '\x08' then "\\b"
  else if c = '\x09' then "\\t"
  else if c = '\x0a' then "\\n"
  else if c = '\x0c' then "\\f"
  else if c = '\x0d' then "\\r"
  else if c.toNat < 32 then
    "\\u00" ++ String.singleton (hexDigit (c.toNat / 16)) ++ String.singleton (hexDigit (c.toNat % 16))
  else String.singleton c

/-- JSON.stringify of a string value. -/
def jsonStringifyString (s : String) : String :=
  "\"" ++ String.join (s.data.map jsonEscapeChar) ++ "\""

/-- JSON.stringify of an array of strings. -/
def jsonStringifyStringList (l : List String) : String :=
  "[" ++ String.intercalate "," (l.map jsonStringifyString) ++ "]"

/-- JavaScript truthy-or-default on an optional string: null, undefined and
the empty string all fall back to the default. -/
def jsOrString (o : Option String) (d : String) : String :=
  match o with
  | some s => if s = "" then d else s
  | none => d

/-- Lowercasing of a string, character by character, modelling the
JavaScript toLowerCase call on the ASCII texts the pipeline handles. -/
def jsToLower (s : String) : String := String.mk (s.data.map Char.toLower)

/-- Whether a character is an ASCII letter, matching the character class
of the identifier regular expression. -/
def isAsciiLetter (c : Char) : Bool :=
  (65 ≤ c.toNat && c.toNat ≤ 90) || (97 ≤ c.toNat && c.toNat ≤ 122)

/-! ## Data model -/

/-- A bill record as consumed by the pipeline. Every text field may be
absent; updated_at carries the parsed epoch value of the feed timestamp. -/
structure Bill where
  id : Option String := none
  identifier : Option String := none
  title : Option String := none
  abstract : Option String := none
  description : Option String := none
  subject : Option (List String) := none
  sponsors : Option (List String) := none
  latest_action : Option String := none
  status : Option String := none
  from_organization_classification : Option String := none
  updated_at : Nat := 0
deriving DecidableEq, Repr

/-- The application error taxonomy relevant to the storage layer. The
storage error carries the analysis key and bill id from its details
object when the code supplies them. -/
inductive AppError where
  | validationError (msg : String)
  | storageError (msg : String) (analysisKey : Option String) (billId : Option String)
  | notFoundError (msg : String)
deriving DecidableEq, Repr

/-- Whether an error is a validation error. -/
def AppError.isValidation : AppError → Bool
  | .validationError _ => true
  | _ => false

/-- Decidable equality of Except results, used to evaluate concrete store
outcomes. -/
instance {e a : Type} [DecidableEq e] [DecidableEq a] : DecidableEq (Except e a)
  | .ok x, .ok y =>
    if h : x = y then .isTrue (by rw [h]) else .isFalse (by intro hh; cases hh; exact h rfl)
  | .ok _, .error _ => .isFalse (by intro hh; cases hh)
  | .error _, .ok _ => .isFalse (by intro hh; cases hh)
  | .error x, .error y =>
    if h : x = y then .isTrue (by rw [h]) else .isFalse (by intro hh; cases hh; exact h rfl)

/-- Whether an error is a storage error. -/
def AppError.isStorage : AppError → Bool
  | .storageError _ _ _ => true
  | _ => false

/-! ## ContentFingerprint: calculateContentHash -/

/-- Embeds calculateContentHash: joins title, abstract, description, the
JSON rendering of the subject list and the latest action with a pipe
separator, hashes the result with the 32-bit string hash, and renders the
hash as a decimal string. Absent fields become the empty string. -/
def calculateContentHash (bill : Bill) : String :=
  let contentString := String.intercalate "|"
    [ jsOrString bill.title ""
    , jsOrString bill.abstract ""
    , jsOrString bill.description ""
    , jsonStringifyStringList (bill.subject.getD [])
    , jsOrString bill.latest_action "" ]
  toString (jsStringHash contentString)

/-! ## AnalysisKeyDeriver: getBillType, getBillNumber and key construction -/

/-- Embeds getBillType: rejects an absent or empty identifier, matches the
leading run of ASCII letters, and lowercases it; no leading letter is an
invalid-format validation error. -/
def getBillType (identifier : String) : Except AppError String :=
  if identifier = "" then .error (.validationError "Bill identifier is required")
  else
    let run := identifier.data.takeWhile isAsciiLetter
    if run.isEmpty then .error (.validationError ("Invalid bill identifier format: " ++ identifier))
    else .ok (String.mk (run.map Char.toLower))

/-- First maximal run of ASCII digits in a character list, if any,
matching the digit regular expression. -/
def firstDigitRun : List Char → Option String
  | [] => none
  | c :: cs => if c.isDigit then some (String.mk (c :: cs.takeWhile Char.isDigit)) else firstDigitRun cs

/-- Embeds getBillNumber: rejects an absent or empty identifier and
returns the first digit run anywhere in the identifier; no digit is an
invalid-format validation error. -/
def getBillNumber (identifier : String) : Except AppError String :=
  if identifier = "" then .error (.validationError "Bill identifier is required")
  else match firstDigitRun identifier.data with
    | none => .error (.validationError ("Invalid bill identifier format: " ++ identifier))
    | some n => .ok n

/-- The chamber component used by the key construction: the classification
field of the from_organization object, with JavaScript falsy fallback to
the string unknown. -/
def chamberOf (bill : Bill) : String :=
  jsOrString bill.from_organization_classification "unknown"

/-- The canonical analysis key construction shared by storeAnalysisResults
and getExistingAnalysis: nh, bill type, chamber and bill number joined by
dashes with the ai-analysis suffix. -/
def deriveAnalysisKey (identifier : String) (chamber : String) : Except AppError String := do
  let billType ← getBillType identifier
  let billNumber ← getBillNumber identifier
  return "nh-" ++ billType ++ "-" ++ chamber ++ "-" ++ billNumber ++ "-ai-analysis"

/-! ## Analysis data model -/

/-- One dimension result as produced by the orchestrator: summary, details
and integer score, with the optional raw_analysis debug field and the
optional error message of the outer fallback path. -/
structure DimensionResult where
  summary : String
  details : String
  score : Int
  raw_analysis : Option String := none
  error : Option String := none
deriving DecidableEq, Repr

/-- The four fixed impact dimensions, each optional. -/
structure Analyses where
  tax_impact : Option DimensionResult := none
  budget_impact : Option DimensionResult := none
  societal_impact : Option DimensionResult := none
  institutional_alignment : Option DimensionResult := none
deriving DecidableEq, Repr

/-- Names of the four impact dimensions, in the order the orchestrator
processes them. -/
inductive ImpactType where
  | tax_impact
  | budget_impact
  | societal_impact
  | institutional_alignment
deriving DecidableEq, Repr

/-- Field lookup on the analyses record by dimension name. -/
def Analyses.get (a : Analyses) : ImpactType → Option DimensionResult
  | .tax_impact => a.tax_impact
  | .budget_impact => a.budget_impact
  | .societal_impact => a.societal_impact
  | .institutional_alignment => a.institutional_alignment

/-- An analysis value as passed to storeAnalysisResults: the analyses
object may be absent altogether. -/
structure AnalysisInput where
  analyses : Option Analyses := none
deriving DecidableEq, Repr

/-- The custom check of the analysis schema: at least one of the four
impact types is truthy on the analyses object. -/
def hasImpactType (a : Analyses) : Bool :=
  a.tax_impact.isSome || a.budget_impact.isSome ||
  a.societal_impact.isSome || a.institutional_alignment.isSome

/-- Embeds validateData against the bill schema: id, identifier and title
are required; a missing field yields the validation error. -/
def validateBill (b : Bill) : Except AppError Unit :=
  if b.id.isNone || b.identifier.isNone || b.title.isNone then
    .error (.validationError "Validation failed")
  else .ok ()

/-- Embeds validateData against the analysis schema: the analyses object
is required and must contain at least one impact type. -/
def validateAnalysisInput (a : AnalysisInput) : Except AppError Unit :=
  match a.analyses with
  | none => .error (.validationError "Validation failed")
  | some an => if hasImpactType an then .ok () else .error (.validationError "Validation failed")

/-- The normalization performed when building the stored record: each
dimension is read through optional chaining with null fallback. -/
def normalizedAnalyses (a : AnalysisInput) : Analyses :=
  { tax_impact := a.analyses.bind (fun x => x.tax_impact)
    budget_impact := a.analyses.bind (fun x => x.budget_impact)
    societal_impact := a.analyses.bind (fun x => x.societal_impact)
    institutional_alignment := a.analyses.bind (fun x => x.institutional_alignment) }

/-- The record stored under the canonical analysis key. -/
structure StoredAnalysis where
  bill_id : String
  bill_identifier : String
  bill_title : String
  analysis_timestamp : String
  analyses : Analyses
  content_hash : String
deriving DecidableEq, Repr

/-- A value written to the KV store: either the analysis record or a plain
string such as the reverse-mapping target. -/
inductive KVValue where
  | analysisData (d : StoredAnalysis)
  | plainString (s : String)
deriving DecidableEq, Repr

/-- Outcomes delivered by the external KV store for the three operations
storeAnalysisResults performs, in order: the analysis put, the mapping
put, and the verification get. An error value models the underlying
promise rejecting with that message; the readback value is what the
verification get returns. -/
structure KVOutcomes where
  analysisPut : Except String Unit := .ok ()
  mappingPut : Except String Unit := .ok ()
  readback : Except String (Option StoredAnalysis) := .ok none

/-! ## AnalysisStore: storeAnalysisResults -/

/-- Embeds storeAnalysisResults. Returns the result (analysis key on
success, application error otherwise) together with the list of KV writes
that completed, in order. Validation of bill and analysis comes first,
then the canonical key is derived, the record is written under it, the
reverse mapping is written, and the canonical key is read back: a
readback that returns no data is a storage error carrying the key and the
bill id. The value returned by the readback is only checked for presence,
never compared with what was written. -/
def storeAnalysisResults (bill : Bill) (analysis : AnalysisInput) (timestamp : String)
    (kv : KVOutcomes) : Except AppError String × List (String × KVValue) :=
  match validateBill bill with
  | .error e => (.error e, [])
  | .ok _ =>
  match validateAnalysisInput analysis with
  | .error e => (.error e, [])
  | .ok _ =>
  match getBillType (bill.identifier.getD "") with
  | .error e => (.error e, [])
  | .ok billType =>
  match getBillNumber (bill.identifier.getD "") with
  | .error e => (.error e, [])
  | .ok billNumber =>
  let chamber := chamberOf bill
  let analysisKey := "nh-" ++ billType ++ "-" ++ chamber ++ "-" ++ billNumber ++ "-ai-analysis"
  let analysisData : StoredAnalysis :=
    { bill_id := bill.id.getD ""
      bill_identifier := bill.identifier.getD ""
      bill_title := bill.title.getD ""
      analysis_timestamp := timestamp
      analyses := normalizedAnalyses analysis
      content_hash := calculateContentHash bill }
  match kv.analysisPut with
  | .error m =>
    (.error (.storageError ("Failed to store analysis: " ++ m) (some analysisKey) bill.id), [])
  | .ok _ =>
  let writesAfterAnalysis := [(analysisKey, KVValue.analysisData analysisData)]
  let billMappingKey := "bill:" ++ bill.id.getD "" ++ ":analysis-key"
  match kv.mappingPut with
  | .error m =>
    (.error (.storageError ("Failed to store bill-to-analysis mapping: " ++ m) (some analysisKey) bill.id),
      writesAfterAnalysis)
  | .ok _ =>
  let writesAfterMapping := writesAfterAnalysis ++ [(billMappingKey, KVValue.plainString analysisKey)]
  match kv.readback with
  | .error m =>
    (.error (.storageError ("Failed to verify analysis was stored: " ++ m) (some analysisKey) bill.id),
      writesAfterMapping)
  | .ok none =>
    (.error (.storageError
        "Failed to verify analysis was stored: Failed to verify analysis storage - data not found after writing"
        (some analysisKey) bill.id),
      writesAfterMapping)
  | .ok (some _) => (.ok analysisKey, writesAfterMapping)

/-- Embeds the inline analysis key computation of
processBillWithPersistentAnalysis: the same leading-letters and digit-run
matches applied directly to the identifier; a failed match makes the
surrounding code throw, modelled as none. -/
def processBillAnalysisKey (bill : Bill) : Option String :=
  match getBillType (bill.identifier.getD ""), getBillNumber (bill.identifier.getD "") with
  | .ok billType, .ok billNumber =>
    some ("nh-" ++ billType ++ "-" ++ chamberOf bill ++ "-" ++ billNumber ++ "-ai-analysis")
  | _, _ => none

/-! ## Keyword fallback: createSimplifiedAnalysis -/

/-- Whether the second list starts with the first. -/
def listStartsWith : List Char → List Char → Bool
  | [], _ => true
  | _ :: _, [] => false
  | a :: as, b :: bs => a == b && listStartsWith as bs

/-- Whether the pattern occurs as a contiguous run inside the list,
modelling the includes method of JavaScript strings. -/
def listContainsSeq (pat : List Char) : List Char → Bool
  | [] => listStartsWith pat []
  | c :: rest => listStartsWith pat (c :: rest) || listContainsSeq pat rest

/-- JavaScript string containment on Lean strings. -/
def jsIncludes (s pat : String) : Bool := listContainsSeq pat.data s.data

/-- The tax keyword set of the simplified analysis. -/
def taxKeywords : List String := ["tax", "revenue", "levy", "fiscal", "income"]

/-- The budget keyword set of the simplified analysis. -/
def budgetKeywords : List String := ["budget", "appropriation", "fund", "spend", "cost"]

/-- The societal keyword set of the simplified analysis. -/
def societalKeywords : List String := ["education", "health", "environment", "justice", "rights", "family"]

/-- The concatenated lowercased search text of a bill: title, abstract,
description and the subject entries joined with spaces. The bill itself
may be null since the fallback path also runs for a failed top-level
analysis. -/
def simplifiedBillText (bill : Option Bill) : String :=
  jsToLower (String.intercalate " "
    ([ jsOrString (bill.bind (fun b => b.title)) ""
     , jsOrString (bill.bind (fun b => b.abstract)) ""
     , jsOrString (bill.bind (fun b => b.description)) "" ]
     ++ (bill.bind (fun b => b.subject)).getD []))

/-- Number of keywords of the set that occur in the text. -/
def keywordMatches (keywords : List String) (text : String) : Nat :=
  (keywords.filter (fun kw => jsIncludes text kw)).length

/-- The summary sentence of a keyword dimension: significant above two
matches, minor otherwise. -/
def simplifiedSummary (count : Nat) (noun : String) : String :=
  "Potential " ++ (if count > 2 then "significant" else "minor") ++ " " ++ noun ++
    " implications based on keyword analysis."

/-- The details sentence of a keyword dimension. -/
def simplifiedDetails (count : Nat) (adjective : String) : String :=
  "This bill contains " ++ toString count ++ " " ++ adjective ++
    "-related keywords, suggesting it may have " ++ adjective ++ " implications."

/-- Embeds createSimplifiedAnalysis: each of the three keyword dimensions
is populated with a neutral-score summary exactly when its keyword count
is positive; the institutional dimension is always populated with a fixed
insufficient-data text. -/
def createSimplifiedAnalysis (bill : Option Bill) : Analyses :=
  let billText := simplifiedBillText bill
  let taxMatches := keywordMatches taxKeywords billText
  let budgetMatches := keywordMatches budgetKeywords billText
  let societalMatches := keywordMatches societalKeywords billText
  { tax_impact :=
      if taxMatches > 0 then
        some { summary := simplifiedSummary taxMatches "tax"
               details := simplifiedDetails taxMatches "tax"
               score := 0 }
      else none
    budget_impact :=
      if budgetMatches > 0 then
        some { summary := simplifiedSummary budgetMatches "budget"
               details := "This bill contains " ++ toString budgetMatches ++
                 " budget-related keywords, suggesting it may have budgetary implications."
               score := 0 }
      else none
    societal_impact :=
      if societalMatches > 0 then
        some { summary := simplifiedSummary societalMatches "societal"
               details := "This bill contains " ++ toString societalMatches ++
                 " society-related keywords, suggesting it may have societal implications."
               score := 0 }
      else none
    institutional_alignment :=
      some { summary := "Insufficient data for institutional alignment analysis."
             details := "Simplified analysis cannot determine institutional alignments without AI processing."
             score := 0 } }

/-! ## AnalysisOrchestrator: analyzeWithAI and analyzeBill -/

/-- The fixed timeout in milliseconds raced against every model call. -/
def AI_TIMEOUT_MS : Nat := 30000

/-- Rendering of a template literal slot holding an optional string: an
absent value renders as the word undefined. -/
def jsTemplateOpt (o : Option String) : String := o.getD "undefined"

/-- Embeds prepareBillContent: the fixed section template over the bill
fields, joined by blank lines. -/
def prepareBillContent (bill : Bill) : String :=
  String.intercalate "\n\n"
    [ "Bill ID: " ++ jsTemplateOpt bill.identifier
    , "Title: " ++ jsOrString bill.title "No title provided"
    , "Abstract: " ++ jsOrString bill.abstract "No abstract provided"
    , "Description: " ++ jsOrString bill.description "No description provided"
    , "Subjects: " ++ (match bill.subject with
        | some l => String.intercalate ", " l
        | none => "No subjects provided")
    , "Sponsors: " ++ (match bill.sponsors with
        | some l => String.intercalate ", " l
        | none => "No sponsors provided")
    , "Latest Action: " ++ jsOrString bill.latest_action "No action recorded"
    , "Current Status: " ++ jsOrString bill.status "Status unknown" ]

/-- The value of the response field of a settled model call. An object
carries its optional summary and details strings and its score when the
score is a number; a string carries alongside it the outcome the platform
JSON parser delivers for it (none when parsing throws); any other shape
carries only its JSON rendering, used for the raw_analysis debug field. -/
inductive AIRespVal where
  | obj (summary : Option String) (details : Option String) (score : Option Int)
  | str (s : String) (jsonParsed : Option (Option String × Option String × Option Int))
  | other (stringified : String)
deriving DecidableEq, Repr

/-- Behavior of the external model promise: it settles after the given
number of milliseconds, either resolving with a response value or
rejecting with an error message. -/
inductive ModelBehavior where
  | resolves (afterMs : Nat) (value : AIRespVal)
  | rejects (afterMs : Nat) (msg : String)

/-- The race of the model promise against the fixed timeout promise: the
model outcome wins only when it settles strictly before the timeout
fires; otherwise the race rejects with the timeout message naming the
dimension. -/
def raceWithTimeout (type : String) (m : ModelBehavior) : Except String AIRespVal :=
  match m with
  | .resolves t v => if t < AI_TIMEOUT_MS then .ok v else .error ("AI analysis timeout for " ++ type)
  | .rejects t msg => if t < AI_TIMEOUT_MS then .error msg else .error ("AI analysis timeout for " ++ type)

/-- Remaining characters after the first occurrence of the pattern, if
the pattern occurs at all. -/
def afterFirstSeq (pat : List Char) : List Char → Option (List Char)
  | [] => if pat.isEmpty then some [] else none
  | c :: rest =>
    if listStartsWith pat (c :: rest) then some ((c :: rest).drop pat.length)
    else afterFirstSeq pat rest

/-- Characters before the first occurrence of the pattern, or the whole
list when the pattern does not occur, modelling a lazy group bounded by a
lookahead for the pattern or the end of input. -/
def beforeFirstSeq (pat : List Char) : List Char → List Char
  | [] => []
  | c :: rest => if listStartsWith pat (c :: rest) then [] else c :: beforeFirstSeq pat rest

/-- The labeled-section extraction of the legacy parser: text after the
first start label up to the first stop label or the end. -/
def extractSection (text : List Char) (startPat stopPat : String) : Option String :=
  (afterFirstSeq startPat.data text).map (fun tail => String.mk (beforeFirstSeq stopPat.data tail))

/-- Decimal digits to a natural number. -/
def digitsToNat (l : List Char) : Nat := l.foldl (fun a c => a * 10 + (c.toNat - 48)) 0

/-- Exact integer value of an optional minus sign followed by digits,
modelling parseInt on the captured group. -/
def parseIntDec (s : String) : Int :=
  match s.data with
  | '-' :: ds => - Int.ofNat (digitsToNat ds)
  | ds => Int.ofNat (digitsToNat ds)

/-- First match of an optionally negated digit run, scanning left to
right, as the lazy score pattern finds it. -/
def firstSignedIntSeq : List Char → Option String
  | [] => none
  | c :: rest =>
    if c.isDigit then some (String.mk (c :: rest.takeWhile Char.isDigit))
    else if c = '-' then
      match rest with
      | d :: _ => if d.isDigit then some (String.mk (c :: rest.takeWhile Char.isDigit))
                  else firstSignedIntSeq rest
      | [] => none
    else firstSignedIntSeq rest

/-- The score extraction: the first signed digit run after the first
occurrence of the score label. -/
def extractScore (text : List Char) : Option Int :=
  (afterFirstSeq "Score:".data text).bind (fun tail => (firstSignedIntSeq tail).map parseIntDec)

/-- The legacy free-text parser of the orchestrator: labeled sections for
summary and details, a signed integer after the score label, with the
fixed fallback strings when a label is missing. -/
def legacyParseResult (s : String) : DimensionResult :=
  let text := s.data
  { summary := match extractSection text "Summary:" "Details:" with
      | some g => g.trim
      | none => "No summary available"
    details := match extractSection text "Details:" "Score:" with
      | some g => g.trim
      | none => "No details available"
    score := (extractScore text).getD 0 }

/-- JSON rendering of a model response object, fields in schema order and
absent fields omitted, used only for the raw_analysis debug field. -/
def stringifyRespObj (s d : Option String) (sc : Option Int) : String :=
  "\x7b" ++ String.intercalate ","
    ((match s with | some v => ["\"summary\":" ++ jsonStringifyString v] | none => []) ++
     (match d with | some v => ["\"details\":" ++ jsonStringifyString v] | none => []) ++
     (match sc with | some v => ["\"score\":" ++ toString v] | none => [])) ++ "\x7d"

/-- Truncation to one thousand UTF-16 units for the raw_analysis field. -/
def jsTake1000 (s : String) : String := String.mk (s.data.take 1000)

/-- The tiered extraction of a dimension result from a settled response
value: direct use of a structured object, then the platform JSON parse of
a string, then the legacy labeled-section parser, then the fixed
unexpected-format fallback; the truncated raw response is attached. -/
def extractResult (type : String) (v : AIRespVal) : DimensionResult :=
  match v with
  | .obj s d sc =>
    { summary := jsOrString s "No summary available"
      details := jsOrString d "No details available"
      score := sc.getD 0
      raw_analysis := some (jsTake1000 (stringifyRespObj s d sc)) }
  | .str s parsed =>
    let base := match parsed with
      | some (ps, pd, psc) =>
        ({ summary := jsOrString ps "No summary available"
           details := jsOrString pd "No details available"
           score := psc.getD 0 } : DimensionResult)
      | none => legacyParseResult s
    { base with raw_analysis := some (jsTake1000 s) }
  | .other st =>
    { summary := "Analysis for " ++ type ++ " returned in unexpected format."
      details := "The AI system returned a response in a format that could not be processed."
      score := 0
      raw_analysis := some (jsTake1000 st) }

/-- Embeds analyzeWithAI for one dimension: the model call is raced
against the fixed timeout; a rejection or timeout is converted into the
degraded neutral-score response object naming the failure, which then
flows through the same extraction as a real response. The function is
total: no model behavior makes it propagate an error. -/
def analyzeWithAI (type : String) (m : ModelBehavior) : DimensionResult :=
  match raceWithTimeout type m with
  | .error msg =>
    extractResult type (.obj
      (some ("Unable to perform detailed analysis due to " ++ msg ++ "."))
      (some "The AI analysis service was unable to complete this request in a timely manner.")
      (some 0))
  | .ok v => extractResult type v

/-- The string name of a dimension as used inside messages. -/
def ImpactType.label : ImpactType → String
  | .tax_impact => "tax_impact"
  | .budget_impact => "budget_impact"
  | .societal_impact => "societal_impact"
  | .institutional_alignment => "institutional_alignment"

/-- The environment of the orchestrator: either the model binding is
entirely absent, or it is present with a behavior for each dimension
call. -/
inductive AnalysisEnv where
  | noAI
  | withAI (outcomes : ImpactType → ModelBehavior)

/-- The result object analyzeBill returns. -/
structure AnalysisResult where
  bill_id : Option String
  bill_identifier : Option String
  analysis_timestamp : String
  analysis_error : Option String := none
  analyses : Analyses
deriving Repr

/-- Embeds analyzeBill. A null bill makes the body throw on its first
field access, so the top-level catch returns the error-carrying result
with the simplified analyses of a null bill; the message models the
TypeError text of reading a property of null. With a bill present, the
model binding decides between the per-dimension AI path, in which every
dimension gets the total analyzeWithAI result for its own model call, and
the simplified keyword path. -/
def analyzeBill (bill : Option Bill) (env : AnalysisEnv) (timestamp : String) : AnalysisResult :=
  match bill with
  | none =>
    { bill_id := none
      bill_identifier := none
      analysis_timestamp := timestamp
      analysis_error := some "Cannot read properties of null reading identifier"
      analyses := createSimplifiedAnalysis none }
  | some b =>
    { bill_id := b.id
      bill_identifier := b.identifier
      analysis_timestamp := timestamp
      analysis_error := none
      analyses :=
        match env with
        | .noAI => createSimplifiedAnalysis (some b)
        | .withAI outcomes =>
          { tax_impact := some (analyzeWithAI ImpactType.tax_impact.label (outcomes .tax_impact))
            budget_impact := some (analyzeWithAI ImpactType.budget_impact.label (outcomes .budget_impact))
            societal_impact := some (analyzeWithAI ImpactType.societal_impact.label (outcomes .societal_impact))
            institutional_alignment :=
              some (analyzeWithAI ImpactType.institutional_alignment.label (outcomes .institutional_alignment)) } }

/-! ## StaleWhileRevalidateCache: withCache and revalidateCache -/

/-- The default fresh TTL of withCache, in seconds. -/
def CACHE_TTL_DEFAULT_S : Nat := 3600

/-- The default stale-while-revalidate TTL of withCache, in seconds. -/
def STALE_TTL_DEFAULT_S : Nat := 600

/-- A response held by the platform cache: body, status and the epoch
value of its date header, from which the middleware computes the age. -/
structure CachedResponse where
  body : String
  status : Nat
  dateMs : Nat
deriving DecidableEq, Repr

/-- Behavior of the wrapped read handler on one invocation: it resolves
with a body and status, or it throws. -/
inductive HandlerOutcome where
  | resolves (body : String) (status : Nat)
  | throws (msg : String)
deriving DecidableEq, Repr

/-- Embeds revalidateCache as a state transformer on the cached entry:
the handler runs, an error status or a thrown handler leaves the entry
unchanged, and a success replaces it wholesale with the fresh response
dated at the revalidation time. -/
def revalidateCache (handler : HandlerOutcome) (nowMs : Nat)
    (entry : Option CachedResponse) : Option CachedResponse :=
  match handler with
  | .throws _ => entry
  | .resolves body status =>
    if status ≥ 400 then entry else some { body := body, status := status, dateMs := nowMs }

/-- The observable outcome of one GET through the cache middleware: the
response returned to the caller, its cache-status header, whether the
caller waited on a handler invocation, how many detached revalidation
tasks the request registered, and the cache entry once any registered
tasks have completed. -/
structure CacheGetResult where
  body : String
  status : Nat
  xCacheStatus : String
  handlerAwaited : Bool
  revalidations : Nat
  entryAfter : Option CachedResponse
deriving DecidableEq, Repr

/-- The fixed body of the error response the middleware builds when the
handler throws. -/
def handlerErrorBody : String :=
  "\x7b\"error\":\x7b\"message\":\"An error occurred processing your request\",\"code\":\"HANDLER_ERROR\"\x7d\x7d"

/-- Embeds the GET path of withCache. When the platform cache returns an
entry, its age in seconds is the elapsed time since its date header; the
entry is served tagged STALE with a registered background revalidation
when the age lies strictly above the fresh TTL and at most the combined
TTL, and tagged FRESH otherwise, never invoking the handler. Only an
absent entry invokes the handler: an error result is returned uncached,
a success is stored with the current time and returned tagged MISS. Age
comparisons are stated on millisecond values, which is equivalent to the
division by one thousand the code performs. -/
def withCacheGet (cacheTtl staleTtl : Nat) (nowMs : Nat) (entry : Option CachedResponse)
    (handler : HandlerOutcome) : CacheGetResult :=
  match entry with
  | some e =>
    let ageMs : Int := (nowMs : Int) - (e.dateMs : Int)
    if 1000 * (cacheTtl : Int) < ageMs ∧ ageMs ≤ 1000 * ((cacheTtl : Int) + (staleTtl : Int)) then
      { body := e.body
        status := e.status
        xCacheStatus := "STALE"
        handlerAwaited := false
        revalidations := 1
        entryAfter := revalidateCache handler nowMs (some e) }
    else
      { body := e.body
        status := e.status
        xCacheStatus := "FRESH"
        handlerAwaited := false
        revalidations := 0
        entryAfter := some e }
  | none =>
    match handler with
    | .throws _ =>
      { body := handlerErrorBody
        status := 500
        xCacheStatus := "ERROR"
        handlerAwaited := true
        revalidations := 0
        entryAfter := none }
    | .resolves body status =>
      if status ≥ 400 then
        { body := body
          status := status
          xCacheStatus := "ERROR"
          handlerAwaited := true
          revalidations := 0
          entryAfter := none }
      else
        { body := body
          status := status
          xCacheStatus := "MISS"
          handlerAwaited := true
          revalidations := 0
          entryAfter := some { body := body, status := status, dateMs := nowMs } }

/-! ## BatchScheduler: updateBillsWithPersistentAnalysis -/

/-- The batch size of the analysis configuration. -/
def MAX_BILLS_PER_BATCH : Nat := 5

/-- The inter-batch delay of the analysis configuration, in milliseconds. -/
def RATE_LIMIT_DELAY_MS : Nat := 5000

/-- A page as fetchBillUpdates hands it to the loop. -/
structure FeedPage where
  results : List Bill
  total_pages : Nat
deriving Repr

/-- Outcome of the underlying feed request for one page: a parsed
success, or any non-success response or network error. -/
inductive FetchOutcome where
  | success (results : List Bill) (total_pages : Nat)
  | failure (msg : String)

/-- Embeds fetchBillUpdates: a failed fetch is caught and converted into
the empty page with zero total pages, so the caller sees an empty result
rather than an exception. -/
def fetchBillUpdates (o : FetchOutcome) : FeedPage :=
  match o with
  | .success results total_pages => { results := results, total_pages := total_pages }
  | .failure _ => { results := [], total_pages := 0 }

/-- The newest updated_at of a page, as the reduce over the results
computes it from the first element; only called on non-empty pages. -/
def newestUpdatedAt : List Bill → Nat
  | [] => 0
  | b :: bs => bs.foldl (fun acc x => if x.updated_at > acc then x.updated_at else acc) b.updated_at

/-- Embeds the page loop of updateBillsWithPersistentAnalysis. The feed
maps each page number to its fetch outcome; processOk tells whether
processing a bill returned without an error field, which decides whether
its identifier is recorded (per-bill processing catches every error
internally and never throws). The batch partitioning of a page only
inserts delays between bills and batches and preserves processing order,
so it is not reflected in the state. Recursion is fuelled; any
terminating run of the source loop corresponds to every sufficiently
large fuel. -/
def updateBillsLoop (feed : Nat → FetchOutcome) (processOk : Bill → Bool) :
    Nat → Nat → Nat → List String → Nat × List String
  | 0, _, watermark, acc => (watermark, acc)
  | fuel + 1, page, watermark, acc =>
    let response := fetchBillUpdates (feed page)
    if response.results.isEmpty then (watermark, acc)
    else
      let newest := newestUpdatedAt response.results
      let watermark2 := if newest > watermark then newest else watermark
      let acc2 := acc ++ (response.results.filter processOk).map (fun b => b.identifier.getD "")
      if response.total_pages > page then updateBillsLoop feed processOk fuel (page + 1) watermark2 acc2
      else (watermark2, acc2)

/-- Embeds updateBillsWithPersistentAnalysis: the loop starts at page one
with the input timestamp as the initial watermark and no processed
identifiers. -/
def updateBillsWithPersistentAnalysis (feed : Nat → FetchOutcome) (processOk : Bill → Bool)
    (fuel : Nat) (lastUpdateTimestamp : Nat) : Nat × List String :=
  updateBillsLoop feed processOk fuel 1 lastUpdateTimestamp []

/-! ## Predicates used to state the claims -/

/-- Whether the identifier begins with an ASCII letter, the condition for
the leading letter run to be non-empty. -/
def hasLeadingLetterRun (s : String) : Bool :=
  match s.data with
  | [] => false
  | c :: _ => isAsciiLetter c

/-- Whether the identifier contains any ASCII digit, the condition for
the digit run match to succeed. -/
def hasDigitRun (s : String) : Bool := s.data.any Char.isDigit

/-- The result pages the sync loop consumes, in order: the trace of
fetched non-empty pages up to the first empty or failed fetch or the
pagination bound, mirroring the control flow of updateBillsLoop. -/
def syncPages (feed : Nat → FetchOutcome) : Nat → Nat → List (List Bill)
  | 0, _ => []
  | fuel + 1, page =>
    let response := fetchBillUpdates (feed page)
    if response.results.isEmpty then []
    else response.results ::
      (if response.total_pages > page then syncPages feed fuel (page + 1) else [])

/-- The watermark step applied per page: replace the running watermark
when the newest updated_at of the page is strictly newer. -/
def watermarkStep (w : Nat) (results : List Bill) : Nat :=
  if newestUpdatedAt results > w then newestUpdatedAt results else w

/-- A concrete bill fixture with four tax keywords in its title, used by
witnesses. -/
def simpleTaxBill : Bill :=
  { id := some "b1", identifier := some "HB 123", title := some "income tax revenue levy",
    from_organization_classification := some "house" }

/-! ## Helper lemmas -/

theorem string_eq_empty_iff (s : String) : (s = "") ↔ s.data = [] := by
  cases s
  constructor
  · intro h
    rw [h]
  · intro h
    simp_all

theorem append_dot_ne_empty (s : String) : (s ++ "." = "") = False := by
  simp only [eq_iff_iff, iff_false]
  intro h
  rw [string_eq_empty_iff, String.data_append] at h
  simp at h

theorem getBillType_ok_iff (s : String) : (∃ t, getBillType s = Except.ok t) ↔ hasLeadingLetterRun s = true := by
  unfold getBillType hasLeadingLetterRun
  by_cases hs : s = ""
  · subst hs
    simp [show ("" : String).data = [] from rfl]
  · rw [if_neg hs]
    have hd : s.data ≠ [] := fun h => hs ((string_eq_empty_iff s).mpr h)
    cases hc : s.data with
    | nil => exact absurd hc hd
    | cons c cs =>
      by_cases hl : isAsciiLetter c
      · simp [List.takeWhile_cons, hl]
      · simp [List.takeWhile_cons, hl]

theorem getBillType_error_isValidation (s : String) (e : AppError)
    (h : getBillType s = .error e) : e.isValidation = true := by
  unfold getBillType at h
  by_cases hs : s = ""
  · rw [if_pos hs] at h
    cases h
    rfl
  · rw [if_neg hs] at h
    by_cases he : (List.takeWhile isAsciiLetter s.data).isEmpty
    · simp only [he, if_true] at h
      cases h
      rfl
    · simp [he] at h

theorem firstDigitRun_eq_none_iff (l : List Char) :
    firstDigitRun l = none ↔ l.any Char.isDigit = false := by
  induction l with
  | nil => simp [firstDigitRun]
  | cons c cs ih =>
    by_cases h : c.isDigit
    · simp [firstDigitRun, h]
    · simp [firstDigitRun, h, ih]

theorem getBillNumber_ok_iff (s : String) : (∃ n, getBillNumber s = Except.ok n) ↔ hasDigitRun s = true := by
  unfold getBillNumber hasDigitRun
  by_cases hs : s = ""
  · subst hs
    simp [show ("" : String).data = [] from rfl]
  · rw [if_neg hs]
    cases hfd : firstDigitRun s.data with
    | none =>
      have := (firstDigitRun_eq_none_iff s.data).mp hfd
      simp [this]
    | some n =>
      have : ¬ (s.data.any Char.isDigit = false) := by
        intro hfalse
        rw [(firstDigitRun_eq_none_iff s.data).mpr hfalse] at hfd
        cases hfd
      simp [this]

theorem getBillNumber_error_isValidation (s : String) (e : AppError)
    (h : getBillNumber s = .error e) : e.isValidation = true := by
  unfold getBillNumber at h
  by_cases hs : s = ""
  · rw [if_pos hs] at h
    cases h
    rfl
  · rw [if_neg hs] at h
    cases hfd : firstDigitRun s.data with
    | none =>
      rw [hfd] at h
      cases h
      rfl
    | some n =>
      rw [hfd] at h
      cases h

theorem deriveAnalysisKey_eq (s ch : String) :
    deriveAnalysisKey s ch =
      match getBillType s, getBillNumber s with
      | .ok t, .ok n => .ok ("nh-" ++ t ++ "-" ++ ch ++ "-" ++ n ++ "-ai-analysis")
      | .error e, _ => .error e
      | .ok _, .error e => .error e := by
  unfold deriveAnalysisKey
  cases h1 : getBillType s <;> cases h2 : getBillNumber s <;>
    simp [h1, h2, Bind.bind, Except.bind, pure, Except.pure]

/-! ## Claims C5 and C8 -/

set_option maxRecDepth 4096 in
/-- C5, counterexample: two bills that differ only in their title have the
identical content fingerprint, so a change in one of the five hashed
fields does not always change the fingerprint. -/
theorem C5_counterexample_hash_collision :
    calculateContentHash { title := some "Aa" } = calculateContentHash { title := some "BB" } ∧
    ({ title := some "Aa" } : Bill).title ≠ ({ title := some "BB" } : Bill).title := by
  constructor
  · decide
  · decide

/-- C5 (amended): the content fingerprint is a pure total function of the
document that treats an absent field as the empty string and depends only
on title, abstract, description, subjects and latest action: any two
bills agreeing on those five fields, whatever their other fields, have
the identical fingerprint. A change to one of the five fields usually
changes the fingerprint but need not, since the 32-bit hash admits
collisions. -/
theorem C5_fingerprint_determined_by_fields
    (t a d : Option String) (subj : Option (List String)) (la : Option String)
    (id1 id2 idf1 idf2 : Option String) (sp1 sp2 : Option (List String))
    (st1 st2 cl1 cl2 : Option String) (u1 u2 : Nat) :
    calculateContentHash
      { id := id1, identifier := idf1, title := t, abstract := a, description := d,
        subject := subj, sponsors := sp1, latest_action := la, status := st1,
        from_organization_classification := cl1, updated_at := u1 } =
    calculateContentHash
      { id := id2, identifier := idf2, title := t, abstract := a, description := d,
        subject := subj, sponsors := sp2, latest_action := la, status := st2,
        from_organization_classification := cl2, updated_at := u2 } := rfl

/-- C8 (confirmed): key derivation from a bill identifier fails exactly
when the identifier has no leading letter run or no digit run, every such
failure is a validation error, derivation is deterministic in the
identifier and chamber pair, and the two malformed example identifiers
fail as the claim states. -/
theorem C8_derive_key_validation :
    (∀ identifier chamber : String,
      (∃ e, deriveAnalysisKey identifier chamber = .error e) ↔
        (hasLeadingLetterRun identifier = false ∨ hasDigitRun identifier = false)) ∧
    (∀ identifier chamber : String, ∀ e,
      deriveAnalysisKey identifier chamber = .error e → e.isValidation = true) ∧
    (∀ identifier chamber : String, ∀ k1 k2,
      deriveAnalysisKey identifier chamber = .ok k1 →
      deriveAnalysisKey identifier chamber = .ok k2 → k1 = k2) ∧
    deriveAnalysisKey "HB 123" "house" = .ok "nh-hb-house-123-ai-analysis" ∧
    deriveAnalysisKey "123" "house" = .error (.validationError "Invalid bill identifier format: 123") ∧
    deriveAnalysisKey "HB" "house" = .error (.validationError "Invalid bill identifier format: HB") := by
  refine ⟨?_, ?_, ?_, by rfl, by rfl, by rfl⟩
  · intro identifier chamber
    rw [deriveAnalysisKey_eq]
    cases h1 : getBillType identifier with
    | error e =>
      have hlet : ¬ hasLeadingLetterRun identifier = true := by
        intro hl
        obtain ⟨t, ht⟩ := (getBillType_ok_iff identifier).mpr hl
        rw [h1] at ht
        cases ht
      simp [Bool.not_eq_true] at hlet
      simp [hlet]
    | ok t =>
      have hlet : hasLeadingLetterRun identifier = true :=
        (getBillType_ok_iff identifier).mp ⟨t, h1⟩
      cases h2 : getBillNumber identifier with
      | error e =>
        have hdig : ¬ hasDigitRun identifier = true := by
          intro hd
          obtain ⟨n, hn⟩ := (getBillNumber_ok_iff identifier).mpr hd
          rw [h2] at hn
          cases hn
        simp [Bool.not_eq_true] at hdig
        simp [hlet, hdig]
      | ok n =>
        have hdig : hasDigitRun identifier = true :=
          (getBillNumber_ok_iff identifier).mp ⟨n, h2⟩
        simp [hlet, hdig]
  · intro identifier chamber e h
    rw [deriveAnalysisKey_eq] at h
    cases h1 : getBillType identifier with
    | error e1 =>
      rw [h1] at h
      cases h
      exact getBillType_error_isValidation identifier e h1
    | ok t =>
      rw [h1] at h
      cases h2 : getBillNumber identifier with
      | error e2 =>
        rw [h2] at h
        cases h
        exact getBillNumber_error_isValidation identifier e h2
      | ok n =>
        rw [h2] at h
        cases h
  · intro identifier chamber k1 k2 h1 h2
    rw [h1] at h2
    cases h2
    rfl

/-- C8, witness: the iff, the error classification and the determinism
conjuncts applied at concrete identifiers, with every hypothesis
discharged by computation. -/
theorem C8_derive_key_validation_witness :
    ((∃ e, deriveAnalysisKey "123" "house" = .error e) ↔
      (hasLeadingLetterRun "123" = false ∨ hasDigitRun "123" = false)) ∧
    AppError.isValidation (.validationError "Invalid bill identifier format: 123") = true ∧
    "nh-hb-house-123-ai-analysis" = "nh-hb-house-123-ai-analysis" :=
  ⟨C8_derive_key_validation.1 "123" "house",
   C8_derive_key_validation.2.1 "123" "house"
     (.validationError "Invalid bill identifier format: 123") (by rfl),
   C8_derive_key_validation.2.2.1 "HB 123" "house"
     "nh-hb-house-123-ai-analysis" "nh-hb-house-123-ai-analysis" (by rfl) (by rfl)⟩

/-! ## Claim C10 -/

theorem hasImpactType_simplified (bill : Option Bill) :
    hasImpactType (createSimplifiedAnalysis bill) = true := by
  simp [createSimplifiedAnalysis, hasImpactType]

/-- C10 (confirmed): analyzeBill is total over every bill (including the
degenerate null bill) and every environment: it always returns a result
whose analyses carry at least one populated dimension; the null bill
makes the top-level catch produce a result carrying an analysis error
message together with the simplified keyword analyses, and a present bill
never produces an analysis error. -/
theorem C10_analyzeBill_total :
    (∀ (bill : Option Bill) (env : AnalysisEnv) (ts : String),
      hasImpactType (analyzeBill bill env ts).analyses = true) ∧
    (∀ (env : AnalysisEnv) (ts : String),
      (analyzeBill none env ts).analysis_error.isSome = true ∧
      (analyzeBill none env ts).analyses = createSimplifiedAnalysis none) ∧
    (∀ (b : Bill) (env : AnalysisEnv) (ts : String),
      (analyzeBill (some b) env ts).analysis_error = none) := by
  refine ⟨?_, ?_, ?_⟩
  · intro bill env ts
    cases bill with
    | none => exact hasImpactType_simplified none
    | some b =>
      cases env with
      | noAI => exact hasImpactType_simplified (some b)
      | withAI outcomes => simp [analyzeBill, hasImpactType]
  · intro env ts
    exact ⟨rfl, rfl⟩
  · intro b env ts
    rfl

/-! ## Claim C9 -/

theorem updateBillsLoop_fst_eq_foldl (feed : Nat → FetchOutcome) (processOk : Bill → Bool) :
    ∀ (fuel page watermark : Nat) (acc : List String),
      (updateBillsLoop feed processOk fuel page watermark acc).1 =
        (syncPages feed fuel page).foldl watermarkStep watermark := by
  intro fuel
  induction fuel with
  | zero => intro page watermark acc; rfl
  | succ n ih =>
    intro page watermark acc
    unfold updateBillsLoop syncPages
    by_cases h : (fetchBillUpdates (feed page)).results.isEmpty
    · simp [h]
    · by_cases h2 : (fetchBillUpdates (feed page)).total_pages > page
      · simp [h, h2, ih, watermarkStep]
      · simp [h, h2, watermarkStep]

theorem le_foldl_watermarkStep :
    ∀ (pages : List (List Bill)) (w : Nat), w ≤ pages.foldl watermarkStep w := by
  intro pages
  induction pages with
  | nil => intro w; exact Nat.le_refl w
  | cons p ps ih =>
    intro w
    have h1 : w ≤ watermarkStep w p := by
      unfold watermarkStep
      by_cases h : newestUpdatedAt p > w
      · simp [h]
        omega
      · simp [h]
    exact Nat.le_trans h1 (ih (watermarkStep w p))

/-- C9 (confirmed): the watermark returned by the sync loop never
regresses below the input timestamp and equals the fold of the
newest-updated step over the non-empty pages actually fetched, starting
from the input timestamp; and a page whose fetch fails stops the loop at
once, returning the watermark and processed list accumulated so far and
consuming no further pages. -/
theorem C9_watermark_never_regresses :
    (∀ (feed : Nat → FetchOutcome) (processOk : Bill → Bool) (fuel since : Nat),
      since ≤ (updateBillsWithPersistentAnalysis feed processOk fuel since).1) ∧
    (∀ (feed : Nat → FetchOutcome) (processOk : Bill → Bool) (fuel since : Nat),
      (updateBillsWithPersistentAnalysis feed processOk fuel since).1 =
        (syncPages feed fuel 1).foldl watermarkStep since) ∧
    (∀ (feed : Nat → FetchOutcome) (processOk : Bill → Bool)
        (fuel page watermark : Nat) (acc : List String) (msg : String),
      feed page = .failure msg →
      updateBillsLoop feed processOk fuel page watermark acc = (watermark, acc)) ∧
    (∀ (feed : Nat → FetchOutcome) (fuel page : Nat) (msg : String),
      feed page = .failure msg → syncPages feed fuel page = []) := by
  refine ⟨?_, ?_, ?_, ?_⟩
  · intro feed processOk fuel since
    rw [updateBillsWithPersistentAnalysis, updateBillsLoop_fst_eq_foldl]
    exact le_foldl_watermarkStep _ _
  · intro feed processOk fuel since
    rw [updateBillsWithPersistentAnalysis, updateBillsLoop_fst_eq_foldl]
  · intro feed processOk fuel page watermark acc msg h
    cases fuel with
    | zero => rfl
    | succ n =>
      unfold updateBillsLoop
      simp [h, fetchBillUpdates]
  · intro feed fuel page msg h
    cases fuel with
    | zero => rfl
    | succ n =>
      unfold syncPages
      simp [h, fetchBillUpdates]

/-- C9, witness: the fail-fast conjuncts applied to a feed whose every
page fails, with the page-failure hypothesis discharged by computation,
together with the watermark bound at the same concrete feed. -/
theorem C9_watermark_never_regresses_witness :
    (5 ≤ (updateBillsWithPersistentAnalysis (fun _ => .failure "boom") (fun _ => true) 3 5).1) ∧
    updateBillsLoop (fun _ => .failure "boom") (fun _ => true) 3 1 5 [] = (5, []) ∧
    syncPages (fun _ => .failure "boom") 3 1 = [] :=
  ⟨C9_watermark_never_regresses.1 (fun _ => .failure "boom") (fun _ => true) 3 5,
   C9_watermark_never_regresses.2.2.1 (fun _ => .failure "boom") (fun _ => true) 3 1 5 [] "boom" (by rfl),
   C9_watermark_never_regresses.2.2.2 (fun _ => .failure "boom") 3 1 "boom" (by rfl)⟩

/-! ## Claims C3 and C4 -/

/-- C3, counterexample: with the default TTLs, an entry still returned by
the platform cache at an elapsed age of 4201 seconds, which is beyond
freshTTL plus staleTTL of 4200 seconds, is served as the stored value
tagged FRESH without invoking the handler, rather than being treated as a
MISS that invokes the handler and stores its fresh result. -/
theorem C3_counterexample_expired_served_fresh :
    withCacheGet CACHE_TTL_DEFAULT_S STALE_TTL_DEFAULT_S 4201000
      (some { body := "old", status := 200, dateMs := 0 }) (.resolves "new" 200) =
      { body := "old", status := 200, xCacheStatus := "FRESH", handlerAwaited := false,
        revalidations := 0, entryAfter := some { body := "old", status := 200, dateMs := 0 } } ∧
    1000 * (CACHE_TTL_DEFAULT_S + STALE_TTL_DEFAULT_S) ≤ 4201000 - 0 ∧
    "FRESH" ≠ "MISS" := by
  refine ⟨by decide, by decide, by decide⟩

/-- C3 (amended): the middleware treats a key as a MISS only when the
platform cache returns no entry, in which case the handler is invoked and
a success result is stored with the current capture time and returned
tagged MISS. An entry the platform cache still returns whose elapsed age
strictly exceeds freshTTL plus staleTTL is not treated as a MISS: the
stored value is served tagged FRESH without invoking the handler, expiry
eviction being delegated to the platform cache. -/
theorem C3_expired_entry_not_miss :
    (∀ (cacheTtl staleTtl nowMs : Nat) (e : CachedResponse) (handler : HandlerOutcome),
      1000 * ((cacheTtl : Int) + (staleTtl : Int)) < (nowMs : Int) - (e.dateMs : Int) →
      withCacheGet cacheTtl staleTtl nowMs (some e) handler =
        { body := e.body, status := e.status, xCacheStatus := "FRESH", handlerAwaited := false,
          revalidations := 0, entryAfter := some e }) ∧
    (∀ (cacheTtl staleTtl nowMs : Nat) (body : String) (status : Nat),
      status < 400 →
      withCacheGet cacheTtl staleTtl nowMs none (.resolves body status) =
        { body := body, status := status, xCacheStatus := "MISS", handlerAwaited := true,
          revalidations := 0,
          entryAfter := some { body := body, status := status, dateMs := nowMs } }) := by
  constructor
  · intro cacheTtl staleTtl nowMs e handler h
    have hcond : ¬ (1000 * (cacheTtl : Int) < (nowMs : Int) - (e.dateMs : Int) ∧
        (nowMs : Int) - (e.dateMs : Int) ≤ 1000 * ((cacheTtl : Int) + (staleTtl : Int))) := by
      omega
    simp only [withCacheGet]
    rw [if_neg hcond]
  · intro cacheTtl staleTtl nowMs body status h
    have hcond : ¬ (status ≥ 400) := by omega
    simp only [withCacheGet]
    rw [if_neg hcond]

/-- C3, witness: the two conjuncts applied at concrete inputs, with the
age and status hypotheses discharged by computation. -/
theorem C3_expired_entry_not_miss_witness :
    withCacheGet 3600 600 4201000 (some { body := "old", status := 200, dateMs := 0 })
        (.resolves "new" 200) =
      { body := "old", status := 200, xCacheStatus := "FRESH", handlerAwaited := false,
        revalidations := 0, entryAfter := some { body := "old", status := 200, dateMs := 0 } } ∧
    withCacheGet 3600 600 7000000 none (.resolves "fresh" 200) =
      { body := "fresh", status := 200, xCacheStatus := "MISS", handlerAwaited := true,
        revalidations := 0, entryAfter := some { body := "fresh", status := 200, dateMs := 7000000 } } :=
  ⟨C3_expired_entry_not_miss.1 3600 600 4201000
     { body := "old", status := 200, dateMs := 0 } (.resolves "new" 200) (by decide),
   C3_expired_entry_not_miss.2 3600 600 7000000 "fresh" 200 (by decide)⟩

/-- C4, counterexample: with the default TTLs, a request at an elapsed
age of exactly freshTTL seconds, which lies in the stale window claimed
as freshTTL up to but excluding freshTTL plus staleTTL, is served tagged
FRESH with no background revalidation registered, not tagged STALE with
one revalidation. -/
theorem C4_counterexample_boundary_served_fresh :
    withCacheGet CACHE_TTL_DEFAULT_S STALE_TTL_DEFAULT_S 3600000
      (some { body := "old", status := 200, dateMs := 0 }) (.resolves "new" 200) =
      { body := "old", status := 200, xCacheStatus := "FRESH", handlerAwaited := false,
        revalidations := 0, entryAfter := some { body := "old", status := 200, dateMs := 0 } } ∧
    "FRESH" ≠ "STALE" := by
  refine ⟨by decide, by decide⟩

/-- C4 (amended): for elapsed ages strictly above freshTTL and at most
freshTTL plus staleTTL, a get returns the stored value immediately tagged
STALE without waiting on the handler, registers exactly one detached
revalidation task which re-invokes the handler and on success replaces
the stored value (and leaves it unchanged when the handler throws), and
registers that task per request without deduplication: a second
concurrent request in the same window registers a second task, for two
in total. -/
theorem C4_stale_window_revalidation :
    ∀ (cacheTtl staleTtl nowMs : Nat) (e : CachedResponse) (handler : HandlerOutcome),
      1000 * (cacheTtl : Int) < (nowMs : Int) - (e.dateMs : Int) →
      (nowMs : Int) - (e.dateMs : Int) ≤ 1000 * ((cacheTtl : Int) + (staleTtl : Int)) →
      (withCacheGet cacheTtl staleTtl nowMs (some e) handler).body = e.body ∧
      (withCacheGet cacheTtl staleTtl nowMs (some e) handler).xCacheStatus = "STALE" ∧
      (withCacheGet cacheTtl staleTtl nowMs (some e) handler).handlerAwaited = false ∧
      (withCacheGet cacheTtl staleTtl nowMs (some e) handler).revalidations = 1 ∧
      (∀ (body : String) (status : Nat), handler = .resolves body status → status < 400 →
        (withCacheGet cacheTtl staleTtl nowMs (some e) handler).entryAfter =
          some { body := body, status := status, dateMs := nowMs }) ∧
      (∀ msg, handler = .throws msg →
        (withCacheGet cacheTtl staleTtl nowMs (some e) handler).entryAfter = some e) ∧
      (∀ (now2 : Nat) (handler2 : HandlerOutcome),
        1000 * (cacheTtl : Int) < (now2 : Int) - (e.dateMs : Int) →
        (now2 : Int) - (e.dateMs : Int) ≤ 1000 * ((cacheTtl : Int) + (staleTtl : Int)) →
        (withCacheGet cacheTtl staleTtl nowMs (some e) handler).revalidations +
          (withCacheGet cacheTtl staleTtl now2 (some e) handler2).revalidations = 2) := by
  intro cacheTtl staleTtl nowMs e handler h1 h2
  have hcond : 1000 * (cacheTtl : Int) < (nowMs : Int) - (e.dateMs : Int) ∧
      (nowMs : Int) - (e.dateMs : Int) ≤ 1000 * ((cacheTtl : Int) + (staleTtl : Int)) := ⟨h1, h2⟩
  have hmain : withCacheGet cacheTtl staleTtl nowMs (some e) handler =
      { body := e.body, status := e.status, xCacheStatus := "STALE", handlerAwaited := false,
        revalidations := 1, entryAfter := revalidateCache handler nowMs (some e) } := by
    simp only [withCacheGet]
    rw [if_pos hcond]
  refine ⟨by rw [hmain], by rw [hmain], by rw [hmain], by rw [hmain], ?_, ?_, ?_⟩
  · intro body status hh hs
    rw [hmain]
    subst hh
    simp only [revalidateCache]
    rw [if_neg (by omega : ¬ status ≥ 400)]
  · intro msg hh
    rw [hmain]
    subst hh
    rfl
  · intro now2 handler2 h3 h4
    have hcond2 : 1000 * (cacheTtl : Int) < (now2 : Int) - (e.dateMs : Int) ∧
        (now2 : Int) - (e.dateMs : Int) ≤ 1000 * ((cacheTtl : Int) + (staleTtl : Int)) := ⟨h3, h4⟩
    have hmain2 : (withCacheGet cacheTtl staleTtl now2 (some e) handler2).revalidations = 1 := by
      simp only [withCacheGet]
      rw [if_pos hcond2]
    rw [hmain, hmain2]

/-- C4, witness: the stale-window theorem applied with the default TTLs
at an elapsed age of 3600001 milliseconds for the first request and
3700000 milliseconds for the concurrent second request, with all window
hypotheses discharged by computation. -/
theorem C4_stale_window_revalidation_witness :
    (withCacheGet 3600 600 3600001 (some { body := "old", status := 200, dateMs := 0 })
      (.resolves "new" 200)).xCacheStatus = "STALE" ∧
    (withCacheGet 3600 600 3600001 (some { body := "old", status := 200, dateMs := 0 })
      (.resolves "new" 200)).revalidations +
      (withCacheGet 3600 600 3700000 (some { body := "old", status := 200, dateMs := 0 })
        (.throws "later")).revalidations = 2 :=
  ⟨(C4_stale_window_revalidation 3600 600 3600001 { body := "old", status := 200, dateMs := 0 }
      (.resolves "new" 200) (by decide) (by decide)).2.1,
   (C4_stale_window_revalidation 3600 600 3600001 { body := "old", status := 200, dateMs := 0 }
      (.resolves "new" 200) (by decide) (by decide)).2.2.2.2.2.2 3700000 (.throws "later")
      (by decide) (by decide)⟩

/-! ## Claim C6 -/

/-- C6 (confirmed): with the model capability entirely absent, analyzeBill
substitutes the keyword-heuristic analysis; every populated dimension of
the substitute has score zero; each keyword dimension is populated
exactly when its keyword count is positive, and its summary says
significant exactly when the count exceeds two and minor otherwise; and
the substitute always carries at least one populated dimension, in
particular for any document with non-empty text. -/
theorem C6_keyword_fallback :
    (∀ (b : Bill) (ts : String),
      (analyzeBill (some b) .noAI ts).analyses = createSimplifiedAnalysis (some b)) ∧
    (∀ (bill : Option Bill) (ty : ImpactType) (r : DimensionResult),
      (createSimplifiedAnalysis bill).get ty = some r → r.score = 0) ∧
    (∀ (bill : Option Bill) (r : DimensionResult),
      (createSimplifiedAnalysis bill).tax_impact = some r →
        jsIncludes r.summary "significant" = decide (2 < keywordMatches taxKeywords (simplifiedBillText bill)) ∧
        jsIncludes r.summary "minor" = decide (keywordMatches taxKeywords (simplifiedBillText bill) ≤ 2)) ∧
    (∀ (bill : Option Bill) (r : DimensionResult),
      (createSimplifiedAnalysis bill).budget_impact = some r →
        jsIncludes r.summary "significant" = decide (2 < keywordMatches budgetKeywords (simplifiedBillText bill)) ∧
        jsIncludes r.summary "minor" = decide (keywordMatches budgetKeywords (simplifiedBillText bill) ≤ 2)) ∧
    (∀ (bill : Option Bill) (r : DimensionResult),
      (createSimplifiedAnalysis bill).societal_impact = some r →
        jsIncludes r.summary "significant" = decide (2 < keywordMatches societalKeywords (simplifiedBillText bill)) ∧
        jsIncludes r.summary "minor" = decide (keywordMatches societalKeywords (simplifiedBillText bill) ≤ 2)) ∧
    (∀ bill : Option Bill,
      (createSimplifiedAnalysis bill).tax_impact.isSome =
        decide (0 < keywordMatches taxKeywords (simplifiedBillText bill)) ∧
      (createSimplifiedAnalysis bill).budget_impact.isSome =
        decide (0 < keywordMatches budgetKeywords (simplifiedBillText bill)) ∧
      (createSimplifiedAnalysis bill).societal_impact.isSome =
        decide (0 < keywordMatches societalKeywords (simplifiedBillText bill))) ∧
    (∀ bill : Option Bill, hasImpactType (createSimplifiedAnalysis bill) = true) := by
  refine ⟨?_, ?_, ?_, ?_, ?_, ?_, ?_⟩
  · intro b ts
    rfl
  · intro bill ty r h
    cases ty with
    | tax_impact =>
      simp only [createSimplifiedAnalysis, Analyses.get] at h
      split at h
      · cases h
        rfl
      · cases h
    | budget_impact =>
      simp only [createSimplifiedAnalysis, Analyses.get] at h
      split at h
      · cases h
        rfl
      · cases h
    | societal_impact =>
      simp only [createSimplifiedAnalysis, Analyses.get] at h
      split at h
      · cases h
        rfl
      · cases h
    | institutional_alignment =>
      simp only [createSimplifiedAnalysis, Analyses.get] at h
      cases h
      rfl
  · intro bill r h
    simp only [createSimplifiedAnalysis] at h
    split at h
    · cases h
      by_cases h2 : 2 < keywordMatches taxKeywords (simplifiedBillText bill)
      · unfold simplifiedSummary
        rw [if_pos h2]
        constructor
        · rw [decide_eq_true h2]
          dsimp only
          decide
        · rw [decide_eq_false (by omega : ¬ (keywordMatches taxKeywords (simplifiedBillText bill) ≤ 2))]
          dsimp only
          decide
      · unfold simplifiedSummary
        rw [if_neg h2]
        constructor
        · rw [decide_eq_false h2]
          dsimp only
          decide
        · rw [decide_eq_true (by omega : keywordMatches taxKeywords (simplifiedBillText bill) ≤ 2)]
          dsimp only
          decide
    · cases h
  · intro bill r h
    simp only [createSimplifiedAnalysis] at h
    split at h
    · cases h
      by_cases h2 : 2 < keywordMatches budgetKeywords (simplifiedBillText bill)
      · unfold simplifiedSummary
        rw [if_pos h2]
        constructor
        · rw [decide_eq_true h2]
          dsimp only
          decide
        · rw [decide_eq_false (by omega : ¬ (keywordMatches budgetKeywords (simplifiedBillText bill) ≤ 2))]
          dsimp only
          decide
      · unfold simplifiedSummary
        rw [if_neg h2]
        constructor
        · rw [decide_eq_false h2]
          dsimp only
          decide
        · rw [decide_eq_true (by omega : keywordMatches budgetKeywords (simplifiedBillText bill) ≤ 2)]
          dsimp only
          decide
    · cases h
  · intro bill r h
    simp only [createSimplifiedAnalysis] at h
    split at h
    · cases h
      by_cases h2 : 2 < keywordMatches societalKeywords (simplifiedBillText bill)
      · unfold simplifiedSummary
        rw [if_pos h2]
        constructor
        · rw [decide_eq_true h2]
          dsimp only
          decide
        · rw [decide_eq_false (by omega : ¬ (keywordMatches societalKeywords (simplifiedBillText bill) ≤ 2))]
          dsimp only
          decide
      · unfold simplifiedSummary
        rw [if_neg h2]
        constructor
        · rw [decide_eq_false h2]
          dsimp only
          decide
        · rw [decide_eq_true (by omega : keywordMatches societalKeywords (simplifiedBillText bill) ≤ 2)]
          dsimp only
          decide
    · cases h
  · intro bill
    refine ⟨?_, ?_, ?_⟩
    · by_cases hc : 0 < keywordMatches taxKeywords (simplifiedBillText bill) <;>
        simp [createSimplifiedAnalysis, hc]
    · by_cases hc : 0 < keywordMatches budgetKeywords (simplifiedBillText bill) <;>
        simp [createSimplifiedAnalysis, hc]
    · by_cases hc : 0 < keywordMatches societalKeywords (simplifiedBillText bill) <;>
        simp [createSimplifiedAnalysis, hc]
  · intro bill
    exact hasImpactType_simplified bill

/-- C6, witness: the populated tax dimension of a concrete bill whose
title holds four tax keywords satisfies the score and summary conjuncts,
with the population hypotheses discharged by computation. -/
theorem C6_keyword_fallback_witness :
    ({ summary := "Potential significant tax implications based on keyword analysis."
       details := "This bill contains 4 tax-related keywords, suggesting it may have tax implications."
       score := 0 } : DimensionResult).score = 0 ∧
    jsIncludes
      ({ summary := "Potential significant tax implications based on keyword analysis."
         details := "This bill contains 4 tax-related keywords, suggesting it may have tax implications."
         score := 0 } : DimensionResult).summary "significant" =
      decide (2 < keywordMatches taxKeywords (simplifiedBillText (some simpleTaxBill))) :=
  ⟨C6_keyword_fallback.2.1 (some simpleTaxBill) .tax_impact
     { summary := "Potential significant tax implications based on keyword analysis."
       details := "This bill contains 4 tax-related keywords, suggesting it may have tax implications."
       score := 0 } (by decide),
   (C6_keyword_fallback.2.2.1 (some simpleTaxBill)
     { summary := "Potential significant tax implications based on keyword analysis."
       details := "This bill contains 4 tax-related keywords, suggesting it may have tax implications."
       score := 0 } (by decide)).1⟩

/-! ## Claim C7 -/

/-- C7 (confirmed): every dimension invocation races the model call
against the fixed thirty-second timeout; when the model has not settled
before the timeout, or when it rejects, the dimension receives a
degraded result with score zero whose summary names the failure, instead
of the error propagating; and each dimension of the overall analysis is
the analyzeWithAI result of its own model call alone, so no failure of
one dimension can abort or alter the other three. -/
theorem C7_timeout_race_degraded :
    AI_TIMEOUT_MS = 30000 ∧
    (∀ (type : String) (t : Nat) (v : AIRespVal), AI_TIMEOUT_MS ≤ t →
      (analyzeWithAI type (.resolves t v)).score = 0 ∧
      (analyzeWithAI type (.resolves t v)).summary =
        "Unable to perform detailed analysis due to " ++ ("AI analysis timeout for " ++ type) ++ ".") ∧
    (∀ (type : String) (t : Nat) (msg : String), AI_TIMEOUT_MS ≤ t →
      (analyzeWithAI type (.rejects t msg)).score = 0 ∧
      (analyzeWithAI type (.rejects t msg)).summary =
        "Unable to perform detailed analysis due to " ++ ("AI analysis timeout for " ++ type) ++ ".") ∧
    (∀ (type : String) (t : Nat) (msg : String), t < AI_TIMEOUT_MS →
      (analyzeWithAI type (.rejects t msg)).score = 0 ∧
      (analyzeWithAI type (.rejects t msg)).summary =
        "Unable to perform detailed analysis due to " ++ msg ++ ".") ∧
    (∀ (b : Bill) (ts : String) (outcomes : ImpactType → ModelBehavior) (ty : ImpactType),
      (analyzeBill (some b) (.withAI outcomes) ts).analyses.get ty =
        some (analyzeWithAI ty.label (outcomes ty))) := by
  refine ⟨rfl, ?_, ?_, ?_, ?_⟩
  · intro type t v h
    have hnlt : ¬ (t < AI_TIMEOUT_MS) := by omega
    unfold analyzeWithAI raceWithTimeout
    dsimp only
    rw [if_neg hnlt]
    dsimp only
    unfold extractResult
    refine ⟨rfl, ?_⟩
    dsimp only
    unfold jsOrString
    have hne : ¬ ("Unable to perform detailed analysis due to " ++
        ("AI analysis timeout for " ++ type) ++ "." = "") := by
      rw [append_dot_ne_empty]
      exact not_false
    dsimp only
    rw [if_neg hne]
  · intro type t msg h
    have hnlt : ¬ (t < AI_TIMEOUT_MS) := by omega
    unfold analyzeWithAI raceWithTimeout
    dsimp only
    rw [if_neg hnlt]
    dsimp only
    unfold extractResult
    refine ⟨rfl, ?_⟩
    dsimp only
    unfold jsOrString
    have hne : ¬ ("Unable to perform detailed analysis due to " ++
        ("AI analysis timeout for " ++ type) ++ "." = "") := by
      rw [append_dot_ne_empty]
      exact not_false
    dsimp only
    rw [if_neg hne]
  · intro type t msg h
    unfold analyzeWithAI raceWithTimeout
    dsimp only
    rw [if_pos h]
    dsimp only
    unfold extractResult
    refine ⟨rfl, ?_⟩
    dsimp only
    unfold jsOrString
    have hne : ¬ ("Unable to perform detailed analysis due to " ++ msg ++ "." = "") := by
      rw [append_dot_ne_empty]
      exact not_false
    dsimp only
    rw [if_neg hne]
  · intro b ts outcomes ty
    cases ty <;> rfl

/-- C7, witness: the timeout and rejection conjuncts applied to concrete
model behaviors, with the timing hypotheses discharged by computation. -/
theorem C7_timeout_race_degraded_witness :
    ((analyzeWithAI "tax_impact" (.resolves 30000 (.other "late"))).score = 0 ∧
      (analyzeWithAI "tax_impact" (.resolves 30000 (.other "late"))).summary =
        "Unable to perform detailed analysis due to " ++
          ("AI analysis timeout for " ++ "tax_impact") ++ ".") ∧
    ((analyzeWithAI "budget_impact" (.rejects 5 "model exploded")).score = 0 ∧
      (analyzeWithAI "budget_impact" (.rejects 5 "model exploded")).summary =
        "Unable to perform detailed analysis due to " ++ "model exploded" ++ ".") :=
  ⟨C7_timeout_race_degraded.2.1 "tax_impact" 30000 (.other "late") (by decide),
   C7_timeout_race_degraded.2.2.2.1 "budget_impact" 5 "model exploded" (by decide)⟩

/-! ## Claims C1 and C2 -/

/-- C1, counterexample: the scenario document with identifier HB 123 and
house chamber is stored under the key nh-hb-house-123-ai-analysis, which
differs from the key nh-hb-house-123-analysis the claim names: the code
appends the suffix ai-analysis, not analysis. -/
theorem C1_counterexample_key_suffix :
    (storeAnalysisResults
        { id := some "b1", identifier := some "HB 123", title := some "Property Tax Relief",
          from_organization_classification := some "house" }
        { analyses := some { tax_impact := some { summary := "s", details := "d", score := 1 } } }
        "2026-01-01"
        { readback := .ok (some { bill_id := "x", bill_identifier := "x", bill_title := "x",
                                  analysis_timestamp := "x", analyses := {}, content_hash := "x" }) }).1 =
      .ok "nh-hb-house-123-ai-analysis" ∧
    ((storeAnalysisResults
        { id := some "b1", identifier := some "HB 123", title := some "Property Tax Relief",
          from_organization_classification := some "house" }
        { analyses := some { tax_impact := some { summary := "s", details := "d", score := 1 } } }
        "2026-01-01"
        { readback := .ok (some { bill_id := "x", bill_identifier := "x", bill_title := "x",
                                  analysis_timestamp := "x", analyses := {}, content_hash := "x" }) }).2.map Prod.fst).head? =
      some "nh-hb-house-123-ai-analysis" ∧
    "nh-hb-house-123-ai-analysis" ≠ "nh-hb-house-123-analysis" := by
  refine ⟨by decide, by decide, by decide⟩

set_option maxRecDepth 8192 in
/-- C1 (amended): for every document the pipeline stores, the canonical
storage key is nh, the leading letters of the identifier lower-cased, the
chamber classification (defaulting to unknown when absent), the first
digit run of the identifier, and the suffix ai-analysis, joined by
dashes; the inline key computation of the per-bill processing step agrees
with the store; and the scenario document with identifier HB 123 and
house chamber is stored under nh-hb-house-123-ai-analysis. -/
theorem C1_canonical_key :
    (∀ (b : Bill) (analysis : AnalysisInput) (ts : String) (kv : KVOutcomes)
        (t n : String) (d : StoredAnalysis),
      validateBill b = .ok () →
      validateAnalysisInput analysis = .ok () →
      getBillType (b.identifier.getD "") = .ok t →
      getBillNumber (b.identifier.getD "") = .ok n →
      kv.analysisPut = .ok () →
      kv.mappingPut = .ok () →
      kv.readback = .ok (some d) →
      (storeAnalysisResults b analysis ts kv).1 =
        .ok ("nh-" ++ t ++ "-" ++ chamberOf b ++ "-" ++ n ++ "-ai-analysis") ∧
      (storeAnalysisResults b analysis ts kv).2.map Prod.fst =
        ["nh-" ++ t ++ "-" ++ chamberOf b ++ "-" ++ n ++ "-ai-analysis",
         "bill:" ++ b.id.getD "" ++ ":analysis-key"] ∧
      processBillAnalysisKey b =
        some ("nh-" ++ t ++ "-" ++ chamberOf b ++ "-" ++ n ++ "-ai-analysis")) ∧
    (∀ b : Bill, b.from_organization_classification = none → chamberOf b = "unknown") ∧
    (storeAnalysisResults
        { id := some "b1", identifier := some "HB 123", title := some "Property Tax Relief",
          from_organization_classification := some "house" }
        { analyses := some { tax_impact := some { summary := "s", details := "d", score := 1 } } }
        "2026-01-01"
        { readback := .ok (some { bill_id := "x", bill_identifier := "x", bill_title := "x",
                                  analysis_timestamp := "x", analyses := {}, content_hash := "x" }) }).1 =
      .ok "nh-hb-house-123-ai-analysis" := by
  refine ⟨?_, ?_, by decide⟩
  · intro b analysis ts kv t n d h1 h2 h3 h4 h5 h6 h7
    unfold storeAnalysisResults processBillAnalysisKey
    rw [h1, h2, h3, h4, h5, h6, h7]
    exact ⟨rfl, rfl, rfl⟩
  · intro b h
    unfold chamberOf jsOrString
    rw [h]

set_option maxRecDepth 8192 in
/-- C1, witness: the universal conjunct applied to the scenario document
with all validation and KV hypotheses discharged by computation. -/
theorem C1_canonical_key_witness :
    (storeAnalysisResults
        { id := some "b1", identifier := some "HB 123", title := some "Property Tax Relief",
          from_organization_classification := some "house" }
        { analyses := some { tax_impact := some { summary := "s", details := "d", score := 1 } } }
        "2026-01-01"
        { readback := .ok (some { bill_id := "x", bill_identifier := "x", bill_title := "x",
                                  analysis_timestamp := "x", analyses := {}, content_hash := "x" }) }).1 =
      .ok ("nh-" ++ "hb" ++ "-" ++
        chamberOf { id := some "b1", identifier := some "HB 123",
                    title := some "Property Tax Relief",
                    from_organization_classification := some "house" } ++ "-" ++ "123" ++ "-ai-analysis") ∧
    chamberOf { id := some "b1", identifier := some "HB 123", title := some "Property Tax Relief" } =
      "unknown" :=
  ⟨(C1_canonical_key.1
      { id := some "b1", identifier := some "HB 123", title := some "Property Tax Relief",
        from_organization_classification := some "house" }
      { analyses := some { tax_impact := some { summary := "s", details := "d", score := 1 } } }
      "2026-01-01"
      { readback := .ok (some { bill_id := "x", bill_identifier := "x", bill_title := "x",
                                analysis_timestamp := "x", analyses := {}, content_hash := "x" }) }
      "hb" "123"
      { bill_id := "x", bill_identifier := "x", bill_title := "x",
        analysis_timestamp := "x", analyses := {}, content_hash := "x" }
      (by decide) (by decide) (by decide) (by decide) (by decide) (by decide) (by decide)).1,
   C1_canonical_key.2.1
     { id := some "b1", identifier := some "HB 123", title := some "Property Tax Relief" } rfl⟩

theorem validateAnalysisInput_error_isValidation (a : AnalysisInput) (e : AppError)
    (h : validateAnalysisInput a = .error e) : e.isValidation = true := by
  unfold validateAnalysisInput at h
  cases ha : a.analyses with
  | none =>
    rw [ha] at h
    dsimp only at h
    cases h
    rfl
  | some an =>
    rw [ha] at h
    dsimp only at h
    by_cases hi : hasImpactType an = true
    · rw [if_pos hi] at h
      cases h
    · rw [if_neg hi] at h
      cases h
      rfl

set_option maxRecDepth 8192 in
/-- C2, counterexample: a store whose verification readback returns a
record different from the record just written still returns success with
the analysis key, rather than raising a storage error: the verification
only checks that the readback returned something, never that it matches
what was written. -/
theorem C2_counterexample_readback_mismatch :
    (storeAnalysisResults
        { id := some "b1", identifier := some "HB 123", title := some "Property Tax Relief",
          from_organization_classification := some "house" }
        { analyses := some { tax_impact := some { summary := "s", details := "d", score := 1 } } }
        "2026-01-01"
        { readback := .ok (some { bill_id := "zzz", bill_identifier := "zzz", bill_title := "zzz",
                                  analysis_timestamp := "zzz", analyses := {}, content_hash := "zzz" }) }).1 =
      .ok "nh-hb-house-123-ai-analysis" ∧
    ((storeAnalysisResults
        { id := some "b1", identifier := some "HB 123", title := some "Property Tax Relief",
          from_organization_classification := some "house" }
        { analyses := some { tax_impact := some { summary := "s", details := "d", score := 1 } } }
        "2026-01-01"
        { readback := .ok (some { bill_id := "zzz", bill_identifier := "zzz", bill_title := "zzz",
                                  analysis_timestamp := "zzz", analyses := {}, content_hash := "zzz" }) }).2.map
        Prod.snd).head? ≠
      some (.analysisData { bill_id := "zzz", bill_identifier := "zzz", bill_title := "zzz",
                            analysis_timestamp := "zzz", analyses := {}, content_hash := "zzz" }) := by
  refine ⟨by decide, by decide⟩

/-- C2 (amended): the store first validates that at least one of the four
dimensions is present, raising a validation error distinct from a storage
error and performing no writes otherwise; on the success path it writes
the analysis record under the canonical key and then the reverse mapping
from the bill id to that key, and then reads the canonical key back; a
readback that returns no data raises a storage error carrying the key and
the bill id and never returns success. A readback that returns data is
accepted without comparing it to what was written. -/
theorem C2_store_validate_write_verify :
    (∀ (b : Bill) (a : AnalysisInput) (ts : String) (kv : KVOutcomes) (e : AppError),
      validateBill b = .ok () →
      validateAnalysisInput a = .error e →
      storeAnalysisResults b a ts kv = (.error e, []) ∧
      e.isValidation = true ∧ e.isStorage = false) ∧
    (∀ (b : Bill) (a : AnalysisInput) (ts : String) (kv : KVOutcomes)
        (t n : String) (d : StoredAnalysis),
      validateBill b = .ok () →
      validateAnalysisInput a = .ok () →
      getBillType (b.identifier.getD "") = .ok t →
      getBillNumber (b.identifier.getD "") = .ok n →
      kv.analysisPut = .ok () →
      kv.mappingPut = .ok () →
      kv.readback = .ok (some d) →
      (storeAnalysisResults b a ts kv).2 =
        [("nh-" ++ t ++ "-" ++ chamberOf b ++ "-" ++ n ++ "-ai-analysis",
          .analysisData { bill_id := b.id.getD "", bill_identifier := b.identifier.getD "",
                          bill_title := b.title.getD "", analysis_timestamp := ts,
                          analyses := normalizedAnalyses a,
                          content_hash := calculateContentHash b }),
         ("bill:" ++ b.id.getD "" ++ ":analysis-key",
          .plainString ("nh-" ++ t ++ "-" ++ chamberOf b ++ "-" ++ n ++ "-ai-analysis"))]) ∧
    (∀ (b : Bill) (a : AnalysisInput) (ts : String) (kv : KVOutcomes) (t n : String),
      validateBill b = .ok () →
      validateAnalysisInput a = .ok () →
      getBillType (b.identifier.getD "") = .ok t →
      getBillNumber (b.identifier.getD "") = .ok n →
      kv.analysisPut = .ok () →
      kv.mappingPut = .ok () →
      kv.readback = .ok none →
      (storeAnalysisResults b a ts kv).1 =
        .error (.storageError
          "Failed to verify analysis was stored: Failed to verify analysis storage - data not found after writing"
          (some ("nh-" ++ t ++ "-" ++ chamberOf b ++ "-" ++ n ++ "-ai-analysis")) b.id) ∧
      ∀ k, (storeAnalysisResults b a ts kv).1 ≠ Except.ok k) := by
  refine ⟨?_, ?_, ?_⟩
  · intro b a ts kv e h1 h2
    refine ⟨?_, validateAnalysisInput_error_isValidation a e h2, ?_⟩
    · unfold storeAnalysisResults
      rw [h1, h2]
    · have hv := validateAnalysisInput_error_isValidation a e h2
      cases e with
      | validationError m => rfl
      | storageError m k i => cases hv
      | notFoundError m => cases hv
  · intro b a ts kv t n d h1 h2 h3 h4 h5 h6 h7
    unfold storeAnalysisResults
    rw [h1, h2, h3, h4, h5, h6, h7]
    rfl
  · intro b a ts kv t n h1 h2 h3 h4 h5 h6 h7
    have hmain : (storeAnalysisResults b a ts kv).1 =
        .error (.storageError
          "Failed to verify analysis was stored: Failed to verify analysis storage - data not found after writing"
          (some ("nh-" ++ t ++ "-" ++ chamberOf b ++ "-" ++ n ++ "-ai-analysis")) b.id) := by
      unfold storeAnalysisResults
      rw [h1, h2, h3, h4, h5, h6, h7]
    refine ⟨hmain, ?_⟩
    intro k hk
    rw [hmain] at hk
    cases hk

set_option maxRecDepth 8192 in
/-- C2, witness: the validation conjunct applied to an analysis with no
populated dimension, and the readback-failure conjunct applied to a store
whose verification get returns nothing, with all hypotheses discharged by
computation. -/
theorem C2_store_validate_write_verify_witness :
    (storeAnalysisResults
        { id := some "b1", identifier := some "HB 123", title := some "Property Tax Relief",
          from_organization_classification := some "house" }
        { analyses := some {} } "2026-01-01" {} =
      (.error (.validationError "Validation failed"), []) ∧
      AppError.isValidation (.validationError "Validation failed") = true ∧
      AppError.isStorage (.validationError "Validation failed") = false) ∧
    (storeAnalysisResults
        { id := some "b1", identifier := some "HB 123", title := some "Property Tax Relief",
          from_organization_classification := some "house" }
        { analyses := some { tax_impact := some { summary := "s", details := "d", score := 1 } } }
        "2026-01-01" { readback := .ok none }).1 =
      .error (.storageError
        "Failed to verify analysis was stored: Failed to verify analysis storage - data not found after writing"
        (some ("nh-" ++ "hb" ++ "-" ++
          chamberOf { id := some "b1", identifier := some "HB 123",
                      title := some "Property Tax Relief",
                      from_organization_classification := some "house" } ++ "-" ++ "123" ++
          "-ai-analysis"))
        (some "b1")) :=
  ⟨C2_store_validate_write_verify.1
     { id := some "b1", identifier := some "HB 123", title := some "Property Tax Relief",
       from_organization_classification := some "house" }
     { analyses := some {} } "2026-01-01" {} (.validationError "Validation failed")
     (by decide) (by decide),
   (C2_store_validate_write_verify.2.2
     { id := some "b1", identifier := some "HB 123", title := some "Property Tax Relief",
       from_organization_classification := some "house" }
     { analyses := some { tax_impact := some { summary := "s", details := "d", score := 1 } } }
     "2026-01-01" { readback := .ok none } "hb" "123"
     (by decide) (by decide) (by decide) (by decide) (by decide) (by decide) (by decide)).1⟩

end NHTracker
